import Mathlib

/-!
Verification of the pet-pal relay backend against its specification.

The definitions below are shallow embeddings of the Python sources:
  src/hf_space/app/api/routes/live_ws.py   (live speech relay)
  src/hf_space/app/api/routes/health_ws.py (consultation / prescription / vaccination endpoints)
  src/hf_space/app/services/prompt_builder.py
  src/hf_space/app/services/mem0_health_service.py
  src/backend/main.py                      (voice / video relay, registry)

Strings are modelled as `List Char`, bytes as `Nat` values below 256.
The Python `base64.b64encode` / `base64.b64decode` pair is modelled by
`b64encode` / `b64decode` below.  `b64decode` decodes well-formed base64
(4-character alphabet groups with canonical final padding) and returns `none`
otherwise; on well-formed input it agrees with the Python decoder.  The Python
decoder is non-strict: it first discards characters outside the alphabet and
raises `binascii.Error` only when what remains is not decodable (so for junk
such as "!!!!" it returns the empty byte string rather than raising, and it
stops at padding occurring before the end).  `none` here therefore does not
always mean Python raises; no theorem below relies on that difference — the
raising inputs used in concrete statements are ones where Python does raise:
a payload such as "abc", whose alphabet characters are not a multiple of four
(`binascii.Error: Incorrect padding`), and a missing "data" key (a KeyError).
-/

namespace PetPal

/-- Standard base64 alphabet used by Python `base64`. -/
def b64Alphabet : List Char :=
  "ABCDEFGHIJKLMNOPQRSTUVWXYZabcdefghijklmnopqrstuvwxyz0123456789+/".toList

/-- Character encoding a sextet value (0..63). -/
def sextetChar (n : Nat) : Char := b64Alphabet.getD n 'A'

/-- Sextet value of an alphabet character; `none` outside the alphabet. -/
def charSextet (c : Char) : Option Nat := b64Alphabet.indexOf? c

/-- Base64 encoding of a byte list (each byte below 256), with `=` padding,
as produced by Python `base64.b64encode`. -/
def b64encode : List Nat → List Char
  | a :: b :: c :: rest =>
    sextetChar (a / 4) :: sextetChar (a % 4 * 16 + b / 16) ::
      sextetChar (b % 16 * 4 + c / 64) :: sextetChar (c % 64) :: b64encode rest
  | [a, b] => [sextetChar (a / 4), sextetChar (a % 4 * 16 + b / 16), sextetChar (b % 16 * 4), '=']
  | [a] => [sextetChar (a / 4), sextetChar (a % 4 * 16), '=', '=']
  | [] => []

/-- Base64 decoding of well-formed input: 4-character alphabet groups with
canonical final padding, `none` otherwise.  Agrees with Python
`base64.b64decode` on well-formed input; see the module comment for where the
non-strict Python decoder differs on ill-formed input. -/
def b64decode : List Char → Option (List Nat)
  | [] => some []
  | c1 :: c2 :: c3 :: c4 :: rest =>
    match charSextet c1, charSextet c2 with
    | some w, some x =>
      if c3 = '=' then
        if c4 = '=' ∧ rest = [] then some [w * 4 + x / 16] else none
      else
        match charSextet c3 with
        | some y =>
          if c4 = '=' then
            if rest = [] then some [w * 4 + x / 16, x % 16 * 16 + y / 4] else none
          else
            match charSextet c4, b64decode rest with
            | some z, some tail =>
              some ((w * 4 + x / 16) :: (x % 16 * 16 + y / 4) :: (y % 4 * 64 + z) :: tail)
            | _, _ => none
        | none => none
    | _, _ => none
  | _ => none

theorem charSextet_sextetChar : ∀ s : Nat, s < 64 → charSextet (sextetChar s) = some s := by
  decide

theorem sextetChar_ne_pad : ∀ s : Nat, s < 64 → sextetChar s ≠ '=' := by
  decide

/-- Round trip: decoding an encoded byte list returns exactly that byte list. -/
theorem b64decode_b64encode :
    ∀ bs : List Nat, (∀ b ∈ bs, b < 256) → b64decode (b64encode bs) = some bs := by
  intro bs
  induction bs using b64encode.induct with
  | case1 a b c rest ih =>
    intro h
    have ha : a < 256 := h a (by simp)
    have hb : b < 256 := h b (by simp)
    have hc : c < 256 := h c (by simp)
    have hrest : ∀ x ∈ rest, x < 256 := fun x hx => h x (by simp [hx])
    rw [b64encode, b64decode]
    rw [charSextet_sextetChar (a / 4) (by omega),
        charSextet_sextetChar (a % 4 * 16 + b / 16) (by omega)]
    dsimp only
    rw [if_neg (sextetChar_ne_pad (b % 16 * 4 + c / 64) (by omega))]
    rw [charSextet_sextetChar (b % 16 * 4 + c / 64) (by omega)]
    dsimp only
    rw [if_neg (sextetChar_ne_pad (c % 64) (by omega))]
    rw [charSextet_sextetChar (c % 64) (by omega)]
    rw [ih hrest]
    dsimp only
    have e1 : a / 4 * 4 + (a % 4 * 16 + b / 16) / 16 = a := by omega
    have e2 : (a % 4 * 16 + b / 16) % 16 * 16 + (b % 16 * 4 + c / 64) / 4 = b := by omega
    have e3 : (b % 16 * 4 + c / 64) % 4 * 64 + c % 64 = c := by omega
    rw [e1, e2, e3]
  | case2 a b =>
    intro h
    have ha : a < 256 := h a (by simp)
    have hb : b < 256 := h b (by simp)
    rw [b64encode, b64decode]
    rw [charSextet_sextetChar (a / 4) (by omega),
        charSextet_sextetChar (a % 4 * 16 + b / 16) (by omega)]
    dsimp only
    rw [if_neg (sextetChar_ne_pad (b % 16 * 4) (by omega))]
    rw [charSextet_sextetChar (b % 16 * 4) (by omega)]
    dsimp only
    rw [if_pos rfl, if_pos rfl]
    have e1 : a / 4 * 4 + (a % 4 * 16 + b / 16) / 16 = a := by omega
    have e2 : (a % 4 * 16 + b / 16) % 16 * 16 + b % 16 * 4 / 4 = b := by omega
    rw [e1, e2]
  | case3 a =>
    intro h
    have ha : a < 256 := h a (by simp)
    rw [b64encode, b64decode]
    rw [charSextet_sextetChar (a / 4) (by omega),
        charSextet_sextetChar (a % 4 * 16) (by omega)]
    dsimp only
    rw [if_pos rfl, if_pos ⟨rfl, rfl⟩]
    have e1 : a / 4 * 4 + a % 4 * 16 / 16 = a := by omega
    rw [e1]
  | case4 =>
    intro _
    rfl

/-!
Inbound message handling of the live relay.

`live_ws.py / receive_from_flutter` reads one JSON message at a time:
`msg_type = data.get("type")`; on "config" it updates the session fields
(`data.get("dog_name", "your dog")`, `data.get("dog_id", "default")`);
on "audio" / "video" it base64-decodes `data["data"]` and forwards the raw
bytes upstream via `send_realtime_input` with mime type "audio/pcm" /
"image/jpeg"; on "stop" it ends the loop; other types are ignored.
`backend/main.py / video_websocket` reads `data["type"]` (KeyError when
absent), forwards "audio" payloads as "audio/pcm" and "video_frame"
payloads as "image/jpeg" media chunks.
-/

/-- Inbound client JSON message: `type` / `data` / config fields, each possibly absent. -/
structure LiveMsg where
  type : Option (List Char)
  data : Option (List Char)
  dog_name : Option (List Char)
  dog_id : Option (List Char)
  deriving DecidableEq

/-- Media chunk forwarded to the upstream live API by `send_realtime_input`. -/
inductive UpAction where
  | audioChunk (bytes : List Nat) (mime : List Char)
  | videoChunk (bytes : List Nat) (mime : List Char)
  deriving DecidableEq

/-- Outcome of handling one inbound message inside the per-message `try` of the relay. -/
inductive LiveStepOut where
  | toUpstream (a : UpAction)
  | setConfig (name id : List Char)
  | skip
  | stopLoop
  | raised
  deriving DecidableEq

/-- Handling of one inbound message by `receive_from_flutter` (live_ws.py, lines 117-141):
`raised` marks the branches where the Python body raises — a missing "data" key
is a KeyError, and a payload whose alphabet characters are not a multiple of
four (such as "abc") is a `binascii.Error: Incorrect padding`.  For ill-formed
payloads that Python instead decodes after discarding junk characters this
model also answers `raised`; no theorem instantiates it on such a payload. -/
def liveHandleMsg (m : LiveMsg) : LiveStepOut :=
  if m.type = some "config".toList then
    .setConfig (m.dog_name.getD "your dog".toList) (m.dog_id.getD "default".toList)
  else if m.type = some "audio".toList then
    match m.data with
    | none => .raised
    | some s =>
      match b64decode s with
      | none => .raised
      | some bytes => .toUpstream (.audioChunk bytes "audio/pcm".toList)
  else if m.type = some "video".toList then
    match m.data with
    | none => .raised
    | some s =>
      match b64decode s with
      | none => .raised
      | some bytes => .toUpstream (.videoChunk bytes "image/jpeg".toList)
  else if m.type = some "stop".toList then
    .stopLoop
  else
    .skip

/-- Handling of one inbound message by `video_websocket` (backend/main.py, lines 187-205). -/
def videoWsHandleMsg (m : LiveMsg) : LiveStepOut :=
  match m.type with
  | none => .raised
  | some t =>
    if t = "audio".toList then
      match m.data with
      | none => .raised
      | some s =>
        match b64decode s with
        | none => .raised
        | some bytes => .toUpstream (.audioChunk bytes "audio/pcm".toList)
    else if t = "video_frame".toList then
      match m.data with
      | none => .raised
      | some s =>
        match b64decode s with
        | none => .raised
        | some bytes => .toUpstream (.videoChunk bytes "image/jpeg".toList)
    else
      .skip

/-- An inbound "audio" message carrying payload `s`. -/
def audioMsg (s : List Char) : LiveMsg := ⟨some "audio".toList, some s, none, none⟩

/-- C1: every well-formed inbound "audio" message whose data is valid base64 is
forwarded upstream as exactly its base64-decoded bytes, tagged "audio/pcm" —
in both relays; moreover decoding inverts encoding, and the concrete payload
base64([0x01, 0x02]) is the string "AQI=". -/
theorem audio_relay_forwards_decoded_bytes :
    (∀ s bytes, b64decode s = some bytes →
      liveHandleMsg (audioMsg s) = .toUpstream (.audioChunk bytes "audio/pcm".toList) ∧
      videoWsHandleMsg (audioMsg s) = .toUpstream (.audioChunk bytes "audio/pcm".toList)) ∧
    (∀ bs : List Nat, (∀ b ∈ bs, b < 256) → b64decode (b64encode bs) = some bs) ∧
    b64encode [1, 2] = "AQI=".toList := by
  refine ⟨fun s bytes h => ⟨?_, ?_⟩, b64decode_b64encode, by decide⟩
  · simp [liveHandleMsg, audioMsg, h]
  · simp [videoWsHandleMsg, audioMsg, h]

/-- C1 witness: the scenario from the spec, input data "AQI=" (base64 of 0x01 0x02)
reaches the upstream as the raw bytes [1, 2] tagged "audio/pcm". -/
theorem audio_relay_forwards_decoded_bytes_witness :
    liveHandleMsg (audioMsg "AQI=".toList)
      = .toUpstream (.audioChunk [1, 2] "audio/pcm".toList) :=
  (audio_relay_forwards_decoded_bytes.1 "AQI=".toList [1, 2] (by decide)).1

/-!
The inbound relay loop of `live_ws.py / receive_from_flutter` (lines 111-147):
`while is_running:` wraps a per-message `try`.  `WebSocketDisconnect` breaks the
loop; a `stop` message breaks the loop; every other exception is only printed
(`except Exception as e: print(...)`) and the loop goes on to the next message.
An event is the input of one iteration: a received JSON message, a disconnect raised
by `receive_json`, or another exception raised by `receive_json`.
-/

/-- Input of one iteration of the inbound relay loop. -/
inductive LiveEvent where
  | recv (m : LiveMsg)
  | disconnect
  | recvRaised
  deriving DecidableEq

/-- Upstream chunks forwarded by the inbound relay loop over a whole event trace,
in order (live_ws.py, lines 115-147). -/
def receiveFromFlutter : List LiveEvent → List UpAction
  | [] => []
  | .disconnect :: _ => []
  | .recvRaised :: rest => receiveFromFlutter rest
  | .recv m :: rest =>
    match liveHandleMsg m with
    | .stopLoop => []
    | .toUpstream a => a :: receiveFromFlutter rest
    | _ => receiveFromFlutter rest

/-- C2 counterexample: an exception while decoding or handling a single message
does not terminate the session — the loop reads a further message and still
forwards it upstream.  Two genuinely raising inputs: payload "abc" has three
alphabet characters, so Python `base64.b64decode` raises `binascii.Error:
Incorrect padding`; and a message with no "data" key makes the source raise a
KeyError at `data["data"]`.  In both runs the following "AQI=" message is still
forwarded. -/
theorem relay_continues_after_decode_error :
    liveHandleMsg (audioMsg "abc".toList) = .raised ∧
    receiveFromFlutter [.recv (audioMsg "abc".toList), .recv (audioMsg "AQI=".toList)]
      = [.audioChunk [1, 2] "audio/pcm".toList] ∧
    liveHandleMsg ⟨some "audio".toList, none, none, none⟩ = .raised ∧
    receiveFromFlutter
        [.recv ⟨some "audio".toList, none, none, none⟩, .recv (audioMsg "AQI=".toList)]
      = [.audioChunk [1, 2] "audio/pcm".toList] := by
  decide

/-- C2 amended: a `WebSocketDisconnect` or a `stop` message terminates the inbound
relay loop, but any other exception while decoding or forwarding one message is
only logged and the loop continues reading further messages. -/
theorem relay_loop_error_policy :
    (∀ m rest, liveHandleMsg m = .raised →
      receiveFromFlutter (.recv m :: rest) = receiveFromFlutter rest) ∧
    (∀ rest, receiveFromFlutter (.recvRaised :: rest) = receiveFromFlutter rest) ∧
    (∀ rest, receiveFromFlutter (.disconnect :: rest) = []) ∧
    (∀ m rest, liveHandleMsg m = .stopLoop →
      receiveFromFlutter (.recv m :: rest) = []) := by
  refine ⟨fun m rest h => ?_, fun rest => rfl, fun rest => rfl, fun m rest h => ?_⟩
  · simp [receiveFromFlutter, h]
  · simp [receiveFromFlutter, h]

/-- C2 amended witness: the concrete bad-padding payload "abc" (a raising input
in Python) is skipped with the loop continuing, and a concrete stop message
ends the loop. -/
theorem relay_loop_error_policy_witness :
    receiveFromFlutter [.recv (audioMsg "abc".toList), .recv (audioMsg "AQI=".toList)]
      = receiveFromFlutter [.recv (audioMsg "AQI=".toList)] ∧
    receiveFromFlutter [.recv ⟨some "stop".toList, none, none, none⟩] = [] :=
  ⟨relay_loop_error_policy.1 (audioMsg "abc".toList) [.recv (audioMsg "AQI=".toList)]
      (by decide),
   relay_loop_error_policy.2.2.2 ⟨some "stop".toList, none, none, none⟩ [] (by decide)⟩

/-!
The session registry `active_sessions` of backend/main.py is a process-wide
Python dict from session id to the upstream session handle.  It is modelled as
an association list with dict semantics: assignment replaces an entry when the
key is present and appends otherwise; `pop(k, None)` removes the entry.
-/

/-- Session registry: association list from session id to upstream handle. -/
abbrev Registry := List (List Char × Nat)

/-- Keys currently in the registry. -/
def regKeys (r : Registry) : List (List Char) := r.map Prod.fst

/-- Python dict assignment `active_sessions[sid] = handle`. -/
def regInsert (r : Registry) (k : List Char) (v : Nat) : Registry :=
  if k ∈ regKeys r then r.map (fun p => if p.1 = k then (k, v) else p) else r ++ [(k, v)]

/-- Python `active_sessions.pop(sid, None)`. -/
def regPop (r : Registry) (k : List Char) : Registry :=
  r.filter (fun p => decide (p.1 ≠ k))

theorem regPop_not_mem (r : Registry) (k : List Char) : k ∉ regKeys (regPop r k) := by
  simp [regKeys, regPop, List.mem_map, List.mem_filter]

/-- Direction of a relay task in `voice_websocket`. -/
inductive Direction where
  | recvDir
  | sendDir
  deriving DecidableEq

/-- Result of one voice session: final registry and which directions got cancelled. -/
structure VoiceResult where
  registry : Registry
  cancelled : Direction → Bool

/-- Control flow of `voice_websocket` (backend/main.py, lines 88-132) once the
upstream connection is open: the handle is stored under the path-supplied
session id, the two relay tasks run under `asyncio.wait(...,
return_when=FIRST_COMPLETED)`; when either task completes first the wait
returns, every still-pending task is cancelled (`for task in pending:
task.cancel()`), and the `finally` block pops the session id from the registry
on every exit path. -/
def voiceSession (reg : Registry) (sid : List Char) (handle : Nat) (firstDone : Direction) :
    VoiceResult :=
  let reg1 := regInsert reg sid handle
  { registry := regPop reg1 sid, cancelled := fun d => decide (d ≠ firstDone) }

/-- Interleaving state of the two tasks of `live_session` (live_ws.py, lines 111-204). -/
structure LiveSessionState where
  isRunning : Bool
  inboundDone : Bool
  outboundDone : Bool
  outboundReadPending : Bool
  outboundCancelled : Bool
  deriving DecidableEq

/-- Initial state: both loops running, the outbound task awaiting `live.receive()`. -/
def liveSessionInit : LiveSessionState :=
  ⟨true, false, false, true, false⟩

/-- Scheduler-visible events for one live session. -/
inductive SessEvent where
  | clientMsg (m : LiveMsg)
  | clientDisconnect
  | upstreamChunk
  deriving DecidableEq

/-- One interleaving step of `live_session`.  The two tasks run in an
`asyncio.TaskGroup`, which cancels siblings only when a task raises; a task
finishing normally (the `stop` branch, or a `WebSocketDisconnect` breaking the
inbound loop) cancels nothing, so the outbound task keeps awaiting its pending
upstream read and re-checks `is_running` only when a chunk arrives. -/
def liveSessionStep (s : LiveSessionState) (e : SessEvent) : LiveSessionState :=
  match e with
  | .clientMsg m =>
    if s.inboundDone ∨ ¬ s.isRunning then { s with inboundDone := true }
    else
      match liveHandleMsg m with
      | .stopLoop => { s with isRunning := false, inboundDone := true }
      | _ => s
  | .clientDisconnect =>
    { s with isRunning := false, inboundDone := true }
  | .upstreamChunk =>
    if s.outboundDone then s
    else if s.isRunning then s
    else { s with outboundDone := true, outboundReadPending := false }

/-- Run a live session over a trace of events. -/
def liveSessionRun (s : LiveSessionState) (es : List SessEvent) : LiveSessionState :=
  es.foldl liveSessionStep s

/-- The inbound message `{type: "stop"}`. -/
def stopMsg : LiveMsg := ⟨some "stop".toList, none, none, none⟩

/-- C3 counterexample: in `live_session`, right after the client sends
`{type:"stop"}` the inbound direction has ended, yet the outbound direction has
not terminated — its pending upstream read is still pending and was not
cancelled (a TaskGroup cancels siblings only on an exception). -/
theorem stop_leaves_outbound_read_pending :
    (liveSessionRun liveSessionInit [.clientMsg stopMsg]).inboundDone = true ∧
    (liveSessionRun liveSessionInit [.clientMsg stopMsg]).outboundDone = false ∧
    (liveSessionRun liveSessionInit [.clientMsg stopMsg]).outboundReadPending = true ∧
    (liveSessionRun liveSessionInit [.clientMsg stopMsg]).outboundCancelled = false := by
  decide

/-- C3 amended: in `voice_websocket`, whenever either direction ends first the
pending task of the other direction is cancelled and the session id is afterward
absent from the registry; in `live_session`, a stop message (or a disconnect)
ends the inbound direction and clears the shared running flag, and the outbound
direction terminates only at its next upstream chunk, when it re-checks the
flag — its pending read is not cancelled, and no registry is involved. -/
theorem session_end_cleanup :
    (∀ (reg : Registry) (sid : List Char) (handle : Nat) (firstDone : Direction),
      sid ∉ regKeys (voiceSession reg sid handle firstDone).registry ∧
      (∀ d, d ≠ firstDone → (voiceSession reg sid handle firstDone).cancelled d = true)) ∧
    (∀ m, liveHandleMsg m = .stopLoop →
      (liveSessionRun liveSessionInit [.clientMsg m]).isRunning = false ∧
      (liveSessionRun liveSessionInit [.clientMsg m]).inboundDone = true ∧
      (liveSessionRun liveSessionInit [.clientMsg m, .upstreamChunk]).outboundDone = true) ∧
    ((liveSessionRun liveSessionInit [.clientDisconnect, .upstreamChunk]).outboundDone = true) := by
  refine ⟨fun reg sid handle firstDone => ⟨regPop_not_mem _ _, fun d hd => ?_⟩,
    fun m hm => ?_, by decide⟩
  · simp [voiceSession, hd]
  · refine ⟨?_, ?_, ?_⟩ <;>
      simp [liveSessionRun, liveSessionStep, liveSessionInit, hm]

/-- C3 amended witness: concrete run with the stop message and the recv
direction finishing first. -/
theorem session_end_cleanup_witness :
    ("s1".toList ∉ regKeys (voiceSession [] "s1".toList 7 .recvDir).registry) ∧
    ((voiceSession [] "s1".toList 7 .recvDir).cancelled .sendDir = true) ∧
    (liveSessionRun liveSessionInit [.clientMsg stopMsg, .upstreamChunk]).outboundDone = true :=
  ⟨(session_end_cleanup.1 [] "s1".toList 7 .recvDir).1,
   (session_end_cleanup.1 [] "s1".toList 7 .recvDir).2 .sendDir (by decide),
   (session_end_cleanup.2.1 stopMsg (by decide)).2.2⟩

/-- One voice/video connect as seen by the registry (backend/main.py, line 103
and line 182): the caller-supplied path id is assigned unconditionally, with no
presence check.  The boolean records whether an entry for that id was already
present at the moment of the insert. -/
def voiceConnectStep (reg : Registry) (sid : List Char) (handle : Nat) : Registry × Bool :=
  (regInsert reg sid handle, decide (sid ∈ regKeys reg))

/-- C5 counterexample: two overlapping voice connections with the same
caller-supplied path id — nothing in `voice_websocket` prevents them — make the
second insert happen while an entry for that id is present. -/
theorem insert_while_present_happens :
    (voiceConnectStep (voiceConnectStep [] "s1".toList 1).1 "s1".toList 2).2 = true := by
  decide

theorem regKeys_regInsert (reg : Registry) (k : List Char) (v : Nat) :
    regKeys (regInsert reg k v) =
      if k ∈ regKeys reg then regKeys reg else regKeys reg ++ [k] := by
  unfold regInsert
  by_cases h : k ∈ regKeys reg
  · rw [if_pos h, if_pos h]
    unfold regKeys
    rw [List.map_map]
    apply List.map_congr_left
    intro p hp
    by_cases hpk : p.1 = k
    · simp [hpk]
    · simp [hpk]
  · rw [if_neg h, if_neg h]
    unfold regKeys
    simp

theorem regKeys_regPop_sublist (reg : Registry) (k : List Char) :
    List.Sublist (regKeys (regPop reg k)) (regKeys reg) :=
  (List.filter_sublist reg).map Prod.fst

/-- C5 amended: the registry, being a dict, always holds at most one entry per
session id — dict assignment preserves key uniqueness and leaves exactly one
entry for the assigned id, and `pop` preserves uniqueness — but inserting an id
while an entry for it is present does happen (the voice/video endpoints assign
the caller-supplied path id unconditionally, overwriting the live entry, as the
counterexample shows), so id non-reuse is not guaranteed by the code. -/
theorem registry_one_entry_per_id :
    (∀ (reg : Registry) (sid : List Char) (handle : Nat),
      (regKeys reg).Nodup → (regKeys (regInsert reg sid handle)).Nodup) ∧
    (∀ (reg : Registry) (sid : List Char) (handle : Nat),
      sid ∈ regKeys (regInsert reg sid handle)) ∧
    (∀ (reg : Registry) (sid : List Char),
      (regKeys reg).Nodup → (regKeys (regPop reg sid)).Nodup) := by
  refine ⟨fun reg sid handle hnd => ?_, fun reg sid handle => ?_,
    fun reg sid hnd => hnd.sublist (regKeys_regPop_sublist reg sid)⟩
  · rw [regKeys_regInsert]
    by_cases h : sid ∈ regKeys reg
    · rwa [if_pos h]
    · rw [if_neg h]
      simp [List.nodup_append, hnd, h]
  · rw [regKeys_regInsert]
    by_cases h : sid ∈ regKeys reg
    · rwa [if_pos h]
    · rw [if_neg h]
      simp

/-- C5 amended witness: a concrete overwriting insert keeps the keys unique. -/
theorem registry_one_entry_per_id_witness :
    (regKeys (regInsert [("s1".toList, 1)] "s1".toList 2)).Nodup :=
  registry_one_entry_per_id.1 [("s1".toList, 1)] "s1".toList 2 (by decide)

/-!
Memory gateway, from src/hf_space/app/services/mem0_health_service.py.
`Mem0HealthService.client` is `None` when MEM0_API_KEY is unset or
initialization failed; each operation first checks the client, wraps its one
backend call in `try`, and maps any raised error to the empty/false default.
The backend calls (`MemoryClient.add` / `MemoryClient.search`) are modelled as
functions into `Except`, whose `error` branch stands for a raised exception.
The metadata dicts built by the add operations do not affect control flow and
are not modelled.
-/

/-- Search result record; the caller reads it with `mem.get("memory", "")`. -/
structure MemRecord where
  memory : List Char
  deriving DecidableEq

/-- External Mem0 cloud client: `search(query, user_id, limit)` and
`add(messages, user_id)` with messages as (role, content) pairs. -/
structure Mem0Backend where
  search : List Char → List Char → Nat → Except (List Char) (List MemRecord)
  add : List (List Char × List Char) → List Char → Except (List Char) Unit

/-- The service wrapper: `client` is `None` exactly when memory is disabled. -/
structure Mem0HealthService where
  client : Option Mem0Backend

/-- Mem0HealthService.get_health_context (lines 56-85). -/
def get_health_context (svc : Mem0HealthService) (dog_id query : List Char) (limit : Nat) :
    List Char :=
  match svc.client with
  | none => []
  | some c =>
    match c.search query dog_id limit with
    | .error _ => []
    | .ok results =>
      if results = [] then []
      else
        List.intercalate "\n".toList
          ("Previous Health Context:".toList ::
            results.filterMap (fun mem =>
              if mem.memory = [] then none else some ("- ".toList ++ mem.memory)))

/-- Mem0HealthService.get_medications (lines 169-183). -/
def get_medications (svc : Mem0HealthService) (dog_id : List Char) : List MemRecord :=
  match svc.client with
  | none => []
  | some c =>
    match c.search "current medications prescriptions".toList dog_id 10 with
    | .error _ => []
    | .ok results => results

/-- Mem0HealthService.get_vaccinations (lines 185-199). -/
def get_vaccinations (svc : Mem0HealthService) (dog_id : List Char) : List MemRecord :=
  match svc.client with
  | none => []
  | some c =>
    match c.search "vaccinations vaccines shots".toList dog_id 10 with
    | .error _ => []
    | .ok results => results

/-- Mem0HealthService.add_consultation_memory (lines 26-54). -/
def add_consultation_memory (svc : Mem0HealthService)
    (dog_id consultation_id message role : List Char) : Bool :=
  match svc.client with
  | none => false
  | some c =>
    match c.add [(role, message)] dog_id with
    | .error _ => false
    | .ok _ => true

/-- Content string built by add_medication (line 135). -/
def medicationContent (medication dosage frequency : List Char) : List Char :=
  "Medication prescribed: ".toList ++ medication ++ ", Dosage: ".toList ++ dosage ++
    ", Frequency: ".toList ++ frequency

/-- Mem0HealthService.add_medication (lines 123-144). -/
def add_medication (svc : Mem0HealthService)
    (dog_id medication dosage frequency : List Char) : Bool :=
  match svc.client with
  | none => false
  | some c =>
    match c.add [("system".toList, medicationContent medication dosage frequency)] dog_id with
    | .error _ => false
    | .ok _ => true

/-- Content string built by add_vaccination (line 158). -/
def vaccinationContent (vaccine date vet : List Char) : List Char :=
  "Vaccination: ".toList ++ vaccine ++ " given on ".toList ++ date ++
    (if vet = [] then [] else " by ".toList ++ vet)

/-- Mem0HealthService.add_vaccination (lines 146-167). -/
def add_vaccination (svc : Mem0HealthService)
    (dog_id vaccine date vet : List Char) : Bool :=
  match svc.client with
  | none => false
  | some c =>
    match c.add [("system".toList, vaccinationContent vaccine date vet)] dog_id with
    | .error _ => false
    | .ok _ => true

/-- C4: the memory gateway is total and best-effort.  With no configured client
every recall returns an empty result and every remember returns false; with a
configured client all of whose calls fail, likewise — no failure propagates
(the operations are plain total functions of this development). -/
theorem memory_gateway_best_effort :
    (∀ svc : Mem0HealthService, svc.client = none →
      (∀ dog_id query limit, get_health_context svc dog_id query limit = []) ∧
      (∀ dog_id, get_medications svc dog_id = []) ∧
      (∀ dog_id, get_vaccinations svc dog_id = []) ∧
      (∀ dog_id cid msg role, add_consultation_memory svc dog_id cid msg role = false) ∧
      (∀ dog_id med dose freq, add_medication svc dog_id med dose freq = false) ∧
      (∀ dog_id vac date vet, add_vaccination svc dog_id vac date vet = false)) ∧
    (∀ (svc : Mem0HealthService) (c : Mem0Backend), svc.client = some c →
      (∀ q u l, ∃ e, c.search q u l = .error e) →
      (∀ msgs u, ∃ e, c.add msgs u = .error e) →
      (∀ dog_id query limit, get_health_context svc dog_id query limit = []) ∧
      (∀ dog_id, get_medications svc dog_id = []) ∧
      (∀ dog_id, get_vaccinations svc dog_id = []) ∧
      (∀ dog_id cid msg role, add_consultation_memory svc dog_id cid msg role = false) ∧
      (∀ dog_id med dose freq, add_medication svc dog_id med dose freq = false) ∧
      (∀ dog_id vac date vet, add_vaccination svc dog_id vac date vet = false)) := by
  constructor
  · intro svc h
    refine ⟨fun dog_id query limit => ?_, fun dog_id => ?_, fun dog_id => ?_,
      fun dog_id cid msg role => ?_, fun dog_id med dose freq => ?_,
      fun dog_id vac date vet => ?_⟩ <;>
      simp [get_health_context, get_medications, get_vaccinations,
        add_consultation_memory, add_medication, add_vaccination, h]
  · intro svc c hc hsearch hadd
    refine ⟨fun dog_id query limit => ?_, fun dog_id => ?_, fun dog_id => ?_,
      fun dog_id cid msg role => ?_, fun dog_id med dose freq => ?_,
      fun dog_id vac date vet => ?_⟩
    · obtain ⟨e, he⟩ := hsearch query dog_id limit
      simp [get_health_context, hc, he]
    · obtain ⟨e, he⟩ := hsearch "current medications prescriptions".toList dog_id 10
      simp only [get_medications, hc, he]
    · obtain ⟨e, he⟩ := hsearch "vaccinations vaccines shots".toList dog_id 10
      simp only [get_vaccinations, hc, he]
    · obtain ⟨e, he⟩ := hadd [(role, msg)] dog_id
      simp [add_consultation_memory, hc, he]
    · obtain ⟨e, he⟩ := hadd [("system".toList, medicationContent med dose freq)] dog_id
      simp only [add_medication, hc, he]
    · obtain ⟨e, he⟩ := hadd [("system".toList, vaccinationContent vac date vet)] dog_id
      simp only [add_vaccination, hc, he]

/-- C4 witness: a disabled service recalls nothing, and a service whose backend
always raises recalls nothing and remembers nothing. -/
theorem memory_gateway_best_effort_witness :
    get_health_context ⟨none⟩ "d1".toList "q".toList 5 = [] ∧
    get_medications
      ⟨some ⟨fun _ _ _ => .error "down".toList, fun _ _ => .error "down".toList⟩⟩
      "d1".toList = [] ∧
    add_consultation_memory
      ⟨some ⟨fun _ _ _ => .error "down".toList, fun _ _ => .error "down".toList⟩⟩
      "d1".toList "c1".toList "hello".toList "user".toList = false :=
  ⟨((memory_gateway_best_effort.1 ⟨none⟩ rfl).1 "d1".toList "q".toList 5),
   ((memory_gateway_best_effort.2
      ⟨some ⟨fun _ _ _ => .error "down".toList, fun _ _ => .error "down".toList⟩⟩
      ⟨fun _ _ _ => .error "down".toList, fun _ _ => .error "down".toList⟩ rfl
      (fun q u l => ⟨"down".toList, rfl⟩)
      (fun msgs u => ⟨"down".toList, rfl⟩)).2.1 "d1".toList),
   ((memory_gateway_best_effort.2
      ⟨some ⟨fun _ _ _ => .error "down".toList, fun _ _ => .error "down".toList⟩⟩
      ⟨fun _ _ _ => .error "down".toList, fun _ _ => .error "down".toList⟩ rfl
      (fun q u l => ⟨"down".toList, rfl⟩)
      (fun msgs u => ⟨"down".toList, rfl⟩)).2.2.2.1
      "d1".toList "c1".toList "hello".toList "user".toList)⟩

/-!
Prompt builders, from src/hf_space/app/services/prompt_builder.py.  Each is a
pure function interpolating its arguments into a fixed f-string template.
-/

/-- ASCII uppercasing, as Python `str.upper` acts on the ASCII strings used here. -/
def upperChar (c : Char) : Char :=
  if 'a' ≤ c ∧ c ≤ 'z' then Char.ofNat (c.toNat - 32) else c

/-- Uppercase a whole string. -/
def upperStr (s : List Char) : List Char := s.map upperChar

/-- Mode instruction table of build_consultation_prompt (lines 15-20):
a dict `.get(mode, "")`, so unknown modes give the empty instruction. -/
def modeInstruction (mode : List Char) : List Char :=
  if mode = "text".toList then
    "Respond in plain text, 2-3 sentences max.".toList
  else if mode = "voice".toList then
    "Respond conversationally as if speaking. Keep it brief and warm.".toList
  else if mode = "video".toList then
    "The user may be showing you their pet. Describe what concerns you see if any.".toList
  else if mode = "emergency".toList then
    "This is an EMERGENCY. Provide immediate first aid steps. Be direct.".toList
  else []

/-- Consultation prompt template with the instruction slot made explicit. -/
def consultationPromptCore
    (dog_name breed age weight health_context user_query instruction : List Char) : List Char :=
  "You are a caring veterinary AI assistant for PetPal.\n\nDOG PROFILE:\n- Name: ".toList ++
    dog_name ++
  "\n- Breed: ".toList ++ breed ++
  "\n- Age: ".toList ++ age ++
  "\n- Weight: ".toList ++ weight ++
  "\n\n".toList ++ health_context ++
  "\n\nUSER QUESTION: ".toList ++ user_query ++
  "\n\nINSTRUCTIONS:\n".toList ++ instruction ++
  "\n- Be warm and friendly\n- Never use markdown formatting\n- If serious, recommend seeing a vet\n- Reference past health issues if relevant\n".toList

/-- build_consultation_prompt (lines 4-41): the mode only selects the
instruction text interpolated into the fixed template. -/
def build_consultation_prompt
    (dog_name breed age weight health_context user_query mode : List Char) : List Char :=
  consultationPromptCore dog_name breed age weight health_context user_query
    (modeInstruction mode)

/-- build_prescription_prompt (lines 44-73). -/
def build_prescription_prompt (dog_name : List Char)
    (current_medications : List (List Char)) (new_medication dosage : List Char) : List Char :=
  let meds_list :=
    if current_medications = [] then "None".toList
    else List.intercalate "\n".toList (current_medications.map (fun m => "- ".toList ++ m))
  "You are checking medication interactions for ".toList ++ dog_name ++
  ".\n\nCURRENT MEDICATIONS:\n".toList ++ meds_list ++
  "\n\nNEW PRESCRIPTION:\n- Medication: ".toList ++ new_medication ++
  "\n- Dosage: ".toList ++ dosage ++
  "\n\nTASK:\n1. Check for drug interactions between current and new medications\n2. Note any contraindications for dogs\n3. Recommend if safe to prescribe\n\nRespond with:\n- SAFE or CAUTION or WARNING\n- Brief explanation\n- Any monitoring recommendations\n".toList

/-- build_vaccination_prompt (lines 76-103). -/
def build_vaccination_prompt (dog_name breed age : List Char)
    (vaccination_history : List (List Char)) (action : List Char) : List Char :=
  let history :=
    if vaccination_history = [] then "No records".toList
    else List.intercalate "\n".toList (vaccination_history.map (fun v => "- ".toList ++ v))
  "You are managing vaccinations for ".toList ++ dog_name ++
  " (".toList ++ breed ++ ", ".toList ++ age ++
  ").\n\nVACCINATION HISTORY:\n".toList ++ history ++
  "\n\nTASK: ".toList ++ upperStr action ++
  "\n\nIf calculating boosters:\n- Core vaccines (Rabies, DHPP) typically every 1-3 years\n- Non-core based on lifestyle (Bordetella, Lyme, etc.)\n\nProvide:\n- Next due vaccines with dates\n- Any overdue vaccines\n- Recommendations based on breed/age\n".toList

/-- C6: for every combination of inputs, the consultation prompt contains the
user message verbatim as a substring, and the dog name verbatim as a substring. -/
theorem consultation_prompt_contains_query_and_name :
    ∀ dog_name breed age weight health_context user_query mode : List Char,
      List.IsInfix user_query
        (build_consultation_prompt dog_name breed age weight health_context user_query mode) ∧
      List.IsInfix dog_name
        (build_consultation_prompt dog_name breed age weight health_context user_query mode) := by
  intro dog_name breed age weight health_context user_query mode
  constructor
  · refine ⟨"You are a caring veterinary AI assistant for PetPal.\n\nDOG PROFILE:\n- Name: ".toList ++
      dog_name ++ "\n- Breed: ".toList ++ breed ++ "\n- Age: ".toList ++ age ++
      "\n- Weight: ".toList ++ weight ++ "\n\n".toList ++ health_context ++
      "\n\nUSER QUESTION: ".toList,
      "\n\nINSTRUCTIONS:\n".toList ++ modeInstruction mode ++
      "\n- Be warm and friendly\n- Never use markdown formatting\n- If serious, recommend seeing a vet\n- Reference past health issues if relevant\n".toList,
      ?_⟩
    simp [build_consultation_prompt, consultationPromptCore, List.append_assoc]
  · refine ⟨"You are a caring veterinary AI assistant for PetPal.\n\nDOG PROFILE:\n- Name: ".toList,
      "\n- Breed: ".toList ++ breed ++ "\n- Age: ".toList ++ age ++
      "\n- Weight: ".toList ++ weight ++ "\n\n".toList ++ health_context ++
      "\n\nUSER QUESTION: ".toList ++ user_query ++
      "\n\nINSTRUCTIONS:\n".toList ++ modeInstruction mode ++
      "\n- Be warm and friendly\n- Never use markdown formatting\n- If serious, recommend seeing a vet\n- Reference past health issues if relevant\n".toList,
      ?_⟩
    simp [build_consultation_prompt, consultationPromptCore, List.append_assoc]

/-- C8: each prompt builder is deterministic (equal arguments give equal
strings), and the consultation mode only selects a fixed instruction text
spliced into the otherwise unchanged template, with unknown modes yielding the
empty instruction. -/
theorem prompt_builders_pure :
    (∀ n b a w h q m, build_consultation_prompt n b a w h q m
      = consultationPromptCore n b a w h q (modeInstruction m)) ∧
    (∀ m, m ≠ "text".toList → m ≠ "voice".toList → m ≠ "video".toList →
      m ≠ "emergency".toList → modeInstruction m = []) ∧
    (∀ n b a w h q m n2 b2 a2 w2 h2 q2 m2,
      n = n2 → b = b2 → a = a2 → w = w2 → h = h2 → q = q2 → m = m2 →
      build_consultation_prompt n b a w h q m
        = build_consultation_prompt n2 b2 a2 w2 h2 q2 m2) ∧
    (∀ n meds new dose n2 meds2 new2 dose2,
      n = n2 → meds = meds2 → new = new2 → dose = dose2 →
      build_prescription_prompt n meds new dose
        = build_prescription_prompt n2 meds2 new2 dose2) ∧
    (∀ n b a hist act n2 b2 a2 hist2 act2,
      n = n2 → b = b2 → a = a2 → hist = hist2 → act = act2 →
      build_vaccination_prompt n b a hist act
        = build_vaccination_prompt n2 b2 a2 hist2 act2) := by
  refine ⟨fun n b a w h q m => rfl, fun m h1 h2 h3 h4 => ?_, ?_, ?_, ?_⟩
  · simp only [modeInstruction, if_neg h1, if_neg h2, if_neg h3, if_neg h4]
  · intro n b a w h q m n2 b2 a2 w2 h2 q2 m2 e1 e2 e3 e4 e5 e6 e7
    subst e1; subst e2; subst e3; subst e4; subst e5; subst e6; subst e7; rfl
  · intro n meds new dose n2 meds2 new2 dose2 e1 e2 e3 e4
    subst e1; subst e2; subst e3; subst e4; rfl
  · intro n b a hist act n2 b2 a2 hist2 act2 e1 e2 e3 e4 e5
    subst e1; subst e2; subst e3; subst e4; subst e5; rfl

/-- C8 witness: the unknown mode "banana" yields the empty instruction, and the
determinism clauses applied at concrete equal arguments. -/
theorem prompt_builders_pure_witness :
    modeInstruction "banana".toList = [] ∧
    build_prescription_prompt "Rex".toList [] "carprofen".toList "5mg".toList
      = build_prescription_prompt "Rex".toList [] "carprofen".toList "5mg".toList :=
  ⟨prompt_builders_pure.2.1 "banana".toList (by decide) (by decide) (by decide) (by decide),
   prompt_builders_pure.2.2.2.1 "Rex".toList [] "carprofen".toList "5mg".toList
     "Rex".toList [] "carprofen".toList "5mg".toList rfl rfl rfl rfl⟩

/-!
The safe-to-prescribe flag of the prescription endpoint, health_ws.py lines
245-259: `safe = "SAFE" in interaction_text.upper()` and the reply JSON carries
it as `safe_to_prescribe`.
-/

/-- Reply sent for action "check_interaction". -/
structure InteractionReply where
  medication : List Char
  interactions : List Char
  safe_to_prescribe : Bool
  deriving DecidableEq

/-- The flag: Python substring containment of "SAFE" in the uppercased text. -/
def interactionSafe (interaction_text : List Char) : Bool :=
  decide (List.IsInfix "SAFE".toList (upperStr interaction_text))

/-- Construction of the check_interaction reply (health_ws.py, lines 250-259). -/
def checkInteractionReply (medication interaction_text : List Char) : InteractionReply :=
  ⟨medication, interaction_text, interactionSafe interaction_text⟩

/-- C9: the safe_to_prescribe flag of the reply is true exactly when the uppercased
AI response contains the substring "SAFE"; in particular responses "UNSAFE" and
"NOT SAFE for dogs" also set it to true. -/
theorem safe_flag_iff_substring :
    (∀ med t, (checkInteractionReply med t).safe_to_prescribe = true ↔
      List.IsInfix "SAFE".toList (upperStr t)) ∧
    (checkInteractionReply "carprofen".toList "UNSAFE".toList).safe_to_prescribe = true ∧
    (checkInteractionReply "carprofen".toList "NOT SAFE for dogs".toList).safe_to_prescribe
      = true := by
  refine ⟨fun med t => ?_, by decide, by decide⟩
  simp [checkInteractionReply, interactionSafe]

/-!
Consultation endpoint, health_ws.py lines 31-157.  One received JSON message is
read with `.get` defaults (lines 71-78), an empty message gets an error reply
and `continue` (lines 80-85), otherwise the Mem0 lookup/store runs inside a
`try` whose failures are swallowed, the prompt is built, and the generation
client produces the reply — or, unconfigured, a fixed apology (line 122).  The
`consultation_id` field is used only inside memory metadata and is not
modelled.  The Mem0 service is modelled by the health-context text it returns
(its internal failures are already absorbed by `get_health_context`).
-/

/-- Inbound consultation message after the `.get` defaulting of lines 71-78;
a missing `message` field defaults to the empty string. -/
structure ConsultMsg where
  mode : List Char
  message : List Char
  dog_id : List Char
  dog_name : List Char
  breed : List Char
  age : List Char
  weight : List Char
  deriving DecidableEq

/-- Replies the endpoint sends to the client (the variants reachable here). -/
inductive OutMsg where
  | errorMsg (text : List Char)
  | responseMsg (text : List Char)
  deriving DecidableEq

/-- Observable calls made while handling one message, in order. -/
inductive Effect where
  | send (m : OutMsg)
  | memSearch (dog_id query : List Char)
  | memAdd (dog_id role text : List Char)
  | genCall (prompt : List Char)
  deriving DecidableEq

/-- Endpoint configuration: the generation client is `None` when GOOGLE_API_KEY
is unset, otherwise a function from prompt to the response text or a raised
error; the optional Mem0 service is modelled by the health context it returns
for (dog_id, query). -/
structure ConsultCfg where
  client : Option (List Char → Except (List Char) (List Char))
  mem0 : Option (List Char → List Char → List Char)

/-- The apology hard-coded at health_ws.py line 122. -/
def apologyText : List Char :=
  "I".toList ++ [Char.ofNat 39] ++
    "m sorry, the AI service is not configured. Please check the API key.".toList

/-- Handling of one received consultation message (health_ws.py, lines 69-152):
the effect trace, and whether the receive loop continues (every branch here
continues; only a transport disconnect ends the loop). -/
def consultHandle (cfg : ConsultCfg) (m : ConsultMsg) : List Effect × Bool :=
  if m.message = [] then
    ([.send (.errorMsg "No message provided".toList)], true)
  else
    let health_context := match cfg.mem0 with
      | none => []
      | some ctx => ctx m.dog_id m.message
    let memEffs : List Effect := match cfg.mem0 with
      | none => []
      | some _ => [.memSearch m.dog_id m.message, .memAdd m.dog_id "user".toList m.message]
    let prompt := build_consultation_prompt m.dog_name m.breed m.age m.weight
      health_context m.message m.mode
    match cfg.client with
    | none =>
      let storeEffs : List Effect := match cfg.mem0 with
        | none => []
        | some _ => [.memAdd m.dog_id "assistant".toList apologyText]
      (memEffs ++ storeEffs ++ [.send (.responseMsg apologyText)], true)
    | some gen =>
      match gen prompt with
      | .ok ai_text =>
        let storeEffs : List Effect := match cfg.mem0 with
          | none => []
          | some _ => [.memAdd m.dog_id "assistant".toList ai_text]
        (memEffs ++ [.genCall prompt] ++ storeEffs ++ [.send (.responseMsg ai_text)], true)
      | .error e =>
        (memEffs ++ [.genCall prompt] ++ [.send (.errorMsg ("AI error: ".toList ++ e))], true)

/-- One iteration input of the consultation receive loop. -/
inductive CEvent where
  | msg (m : ConsultMsg)
  | disconnect

/-- The consultation receive loop over an event trace: effects in order and the
final registry.  The `finally` pops the session id only when the loop exits on
a disconnect; while events remain the session stays registered. -/
def consultLoop (cfg : ConsultCfg) :
    List CEvent → Registry → List Char → List Effect × Registry
  | [], reg, _ => ([], reg)
  | .disconnect :: _, reg, sid => ([], regPop reg sid)
  | .msg m :: rest, reg, sid =>
    let step := consultHandle cfg m
    if step.2 then
      let next := consultLoop cfg rest reg sid
      (step.1 ++ next.1, next.2)
    else
      (step.1, reg)

/-- C7: a well-formed message whose `message` field is missing or empty gets
exactly the error reply "No message provided", with no memory or generation
call; the receive loop continues with the remaining events and the iteration
leaves the registry untouched. -/
theorem empty_message_recoverable :
    ∀ (cfg : ConsultCfg) (m : ConsultMsg), m.message = [] →
      consultHandle cfg m = ([.send (.errorMsg "No message provided".toList)], true) ∧
      (∀ rest reg sid,
        consultLoop cfg (.msg m :: rest) reg sid
          = (.send (.errorMsg "No message provided".toList) :: (consultLoop cfg rest reg sid).1,
             (consultLoop cfg rest reg sid).2)) := by
  intro cfg m hm
  constructor
  · simp [consultHandle, hm]
  · intro rest reg sid
    simp [consultLoop, consultHandle, hm]

/-- C7 witness: an empty message on a registered session is answered with the
error reply while the registry entry survives the iteration. -/
theorem empty_message_recoverable_witness :
    consultLoop ⟨none, none⟩ [.msg ⟨"text".toList, [], "d1".toList, "Rex".toList, [], [], []⟩]
        [("sid".toList, 5)] "sid".toList
      = ([.send (.errorMsg "No message provided".toList)], [("sid".toList, 5)]) := by
  have h := (empty_message_recoverable ⟨none, none⟩
    ⟨"text".toList, [], "d1".toList, "Rex".toList, [], [], []⟩ rfl).2
    [] [("sid".toList, 5)] "sid".toList
  simpa [consultLoop] using h

/-- C10: with the generation client unconfigured, a nonempty message still gets
a "response" reply (never an error reply) whose text is the fixed apology, and
when the memory service is configured the apology is additionally stored as an
assistant message. -/
theorem unconfigured_client_apology :
    ∀ (cfg : ConsultCfg) (m : ConsultMsg), cfg.client = none → m.message ≠ [] →
      (cfg.mem0 = none →
        consultHandle cfg m = ([.send (.responseMsg apologyText)], true)) ∧
      (∀ ctx, cfg.mem0 = some ctx →
        consultHandle cfg m
          = ([.memSearch m.dog_id m.message, .memAdd m.dog_id "user".toList m.message,
              .memAdd m.dog_id "assistant".toList apologyText,
              .send (.responseMsg apologyText)], true)) := by
  intro cfg m hc hm
  constructor
  · intro hmem
    simp [consultHandle, hm, hc, hmem]
  · intro ctx hmem
    simp [consultHandle, hm, hc, hmem]

/-- C10 witness: concrete unconfigured client with a configured memory service. -/
theorem unconfigured_client_apology_witness :
    consultHandle ⟨none, some fun _ _ => []⟩
        ⟨"text".toList, "hi".toList, "d1".toList, "Rex".toList, [], [], []⟩
      = ([.memSearch "d1".toList "hi".toList,
          .memAdd "d1".toList "user".toList "hi".toList,
          .memAdd "d1".toList "assistant".toList apologyText,
          .send (.responseMsg apologyText)], true) :=
  (unconfigured_client_apology ⟨none, some fun _ _ => []⟩
      ⟨"text".toList, "hi".toList, "d1".toList, "Rex".toList, [], [], []⟩
      rfl (by decide)).2 (fun _ _ => []) rfl

end PetPal
